import Mathlib

/-!
Shallow embedding of the rental transaction engine of `app.py` from the
Self-drive vehicle rental platform.

Monetary amounts are modelled as rationals.  `round2` models the ideal
semantics of Python `round(x, 2)` (round half to even on the second decimal).
Timestamps are modelled as integers counting seconds: `naive_utcnow()` becomes
an explicit `now` parameter and `timedelta(hours=1)` becomes `+ 3600`.
Nullable database columns become `Option` fields; columns that are
`NOT NULL DEFAULT 0` (all monetary columns except `counter_amount`) and the
`NOT NULL DEFAULT` status columns are plain fields.  The Python idiom
`x or default` on a nullable numeric column is modelled explicitly (both
`NULL` and `0.0` are falsy); on a `NOT NULL REAL` column it is the identity
and is modelled as such.
-/

set_option allowUnsafeReducibility true

attribute [semireducible] Rat.mul Rat.inv Rat.add Rat.sub

namespace SelfDrive

/-- Python `round` to an integer: round half to even (banker rounding). -/
def roundHalfEven (q : ℚ) : ℤ :=
  if q - (⌊q⌋ : ℚ) < 1/2 then ⌊q⌋
  else if 1/2 < q - (⌊q⌋ : ℚ) then ⌊q⌋ + 1
  else if ⌊q⌋ % 2 = 0 then ⌊q⌋ else ⌊q⌋ + 1

/-- Python `round(x, 2)`. -/
def round2 (q : ℚ) : ℚ := (roundHalfEven (q * 100) : ℚ) / 100

/-- The rational `q` is a whole number of paise (an exact multiple of 0.01).
All monetary amounts the engine stores are of this shape because every
derived amount is passed through `round(x, 2)` before being persisted. -/
def TwoDec (q : ℚ) : Prop := ∃ n : ℤ, q * 100 = (n : ℚ)

/-- app.py line 41. -/
def COMPANY_COMMISSION_RATE : ℚ := 1/10

/-- app.py line 42. -/
def OWNER_INITIAL_PAYOUT_RATE : ℚ := 1/10

/-- app.py lines 36 to 40: fixed promo code table, percentage per code. -/
def PROMO_CODES : List (String × ℚ) :=
  [("ZOOM10", 1/10), ("WEEKEND15", 3/20), ("FIRSTDRIVE", 1/5)]

/-- Result dictionary of `calculate_pricing` (app.py lines 1221 to 1228).
A package is a (label, hours, price) triple. -/
structure PricingResult where
  hours : ℚ
  base_amount : ℚ
  discount : ℚ
  total : ℚ
  promo_applied : Option String
  packages : List (String × ℤ × ℚ)
deriving DecidableEq

/-- `calculate_pricing` (app.py lines 1180 to 1228).  `start` and `endT` are
timestamps in seconds; the elapsed hours are their difference over 3600. -/
def calculate_pricing (rate_per_hour daily_rate : ℚ) (start endT : ℤ)
    (promo_code : Option String) : PricingResult :=
  let endT := if endT ≤ start then start + 4 * 3600 else endT
  let hours : ℚ := ((endT - start : ℤ) : ℚ) / 3600
  let hours := max 1 hours
  -- Python: `daily_rate or rate_per_hour * 24` (0.0 is falsy)
  let effective_daily := if daily_rate = 0 then rate_per_hour * 24 else daily_rate
  -- `int(hours // 24)`: hours is at least 1, so this is the floor
  let full_days : ℤ := ⌊hours / 24⌋
  let remaining := hours - (full_days : ℚ) * 24
  let remaining_hours : ℤ := if 0 < remaining then ⌈remaining⌉ else 0
  let base_total := (full_days : ℚ) * effective_daily +
    (if remaining_hours ≠ 0 then min effective_daily ((remaining_hours : ℚ) * rate_per_hour)
     else 0)
  let packages : List (String × ℤ × ℚ) := [(4 : ℤ), 8, 24].map fun package_hours =>
    ((if package_hours ≠ 24 then toString package_hours ++ "-hour pack" else "Full day"),
     package_hours,
     round2 (min effective_daily (rate_per_hour * (package_hours : ℚ))))
  let promo : ℚ × Option String :=
    match promo_code with
    | none => (0, none)
    | some pc =>
      if pc = "" then (0, none)
      else
        let code := pc.toUpper.trim
        match PROMO_CODES.lookup code with
        | some pct => (round2 (base_total * pct), some code)
        | none => (0, none)
  let discount := promo.1
  let total := max 0 (round2 (base_total - discount))
  { hours := round2 hours
    base_amount := round2 base_total
    discount := discount
    total := total
    promo_applied := promo.2
    packages := packages }

/-- A row of the `rentals` table (app.py lines 380 to 427), restricted to the
columns the rental transaction engine reads or writes.  `TEXT` timestamp
columns that may be `NULL` are `Option Int`; `counter_amount` is the one
nullable `REAL` column. -/
structure Rental where
  status : String
  end_time : Option Int
  completed_at : Option Int
  discount_amount : ℚ
  rental_amount : ℚ
  delivery_fee : ℚ
  total_amount : ℚ
  owner_response : String
  owner_response_at : Option Int
  counter_amount : Option ℚ
  counter_comment : String
  counter_used : Bool
  cancel_reason : String
  payment_status : String
  payment_due_at : Option Int
  payment_confirmed_at : Option Int
  payment_channel : String
  payment_gateway : String
  payment_reference : String
  payment_order_id : String
  company_commission_amount : ℚ
  owner_payout_amount : ℚ
  owner_payout_status : String
  owner_payout_released_at : Option Int
  owner_initial_payout_amount : ℚ
  owner_initial_payout_status : String
  owner_initial_payout_released_at : Option Int
  owner_final_payout_amount : ℚ
  owner_final_payout_status : String
  owner_final_payout_released_at : Option Int
  renter_response : String
  renter_response_at : Option Int
deriving DecidableEq

/-- Payout breakdown returned by `finalize_rental_payment`
(app.py lines 2826 to 2831). -/
structure PayoutBreakdown where
  commission : ℚ
  owner_net : ℚ
  initial_payout : ℚ
  final_payout : ℚ
deriving DecidableEq

/-- `finalize_rental_payment` (app.py lines 2761 to 2831): mark the rental as
paid and return the payout breakdown.  `now` stands for `naive_utcnow()`. -/
def finalizeRentalPayment (now : Int) (payment_channel payment_gateway
    payment_reference : String) (payment_order_id? : Option String) (r : Rental) :
    Rental × PayoutBreakdown :=
  let total_amount := r.total_amount
  let commission := round2 (total_amount * COMPANY_COMMISSION_RATE)
  let owner_net := max 0 (round2 (total_amount - commission))
  let initial_payout0 := round2 (owner_net * OWNER_INITIAL_PAYOUT_RATE)
  let initial_payout := if owner_net ≤ 0 then 0 else initial_payout0
  let final_payout0 := max 0 (round2 (owner_net - initial_payout))
  let final_payout :=
    if round2 (initial_payout + final_payout0) ≠ round2 owner_net then
      max 0 (round2 (owner_net - initial_payout))
    else final_payout0
  -- Python: `payment_order_id or rental["payment_order_id"] or ""`
  let stored_order_id :=
    match payment_order_id? with
    | some s => if s ≠ "" then s else r.payment_order_id
    | none => r.payment_order_id
  let initial_status := if initial_payout > 0 then "paid" else "not_required"
  let initial_released_at := if initial_payout > 0 then some now else none
  let final_status := if final_payout > 0 then "pending" else "not_required"
  ({ r with
      payment_status := "paid"
      payment_confirmed_at := some now
      payment_channel := payment_channel
      payment_gateway := payment_gateway
      payment_reference := payment_reference
      payment_order_id := stored_order_id
      company_commission_amount := commission
      owner_payout_amount := owner_net
      owner_payout_status := final_status
      owner_payout_released_at := none
      owner_initial_payout_amount := initial_payout
      owner_initial_payout_status := initial_status
      owner_initial_payout_released_at := initial_released_at
      owner_final_payout_amount := final_payout
      owner_final_payout_status := final_status
      owner_final_payout_released_at := none
      payment_due_at := none
      renter_response := if r.renter_response = "" then "paid" else r.renter_response },
   ⟨commission, owner_net, initial_payout, final_payout⟩)

/-- `renter_confirm_payment` (app.py lines 2989 to 3019): the renter marks the
rental as paid.  The SQL lookup demands `owner_response = accepted` and places
no condition on `payment_status`; on a miss the route aborts with 404
(`none`). -/
def renterConfirmPayment (now : Int) (payment_channel : String) (r : Rental) :
    Option (Rental × PayoutBreakdown) :=
  if r.owner_response = "accepted" then
    some (finalizeRentalPayment now payment_channel "manual" "manual-confirmation" none r)
  else none

/-- `admin_update_payment` (app.py lines 1686 to 1782): manual payment status
override.  A status outside the allowed set aborts with 400 (`none`).
Setting `paid` recomputes the full split from `total_amount`; any other
status zeroes every commission and payout field. -/
def adminUpdatePayment (now : Int) (new_status : String) (r : Rental) : Option Rental :=
  if new_status ≠ "pending" ∧ new_status ≠ "awaiting_payment" ∧ new_status ≠ "paid" then
    none
  else if new_status = "paid" then
    let total_amount := r.total_amount
    let commission := round2 (total_amount * COMPANY_COMMISSION_RATE)
    let owner_payout := max 0 (round2 (total_amount - commission))
    let initial_amount0 := round2 (owner_payout * OWNER_INITIAL_PAYOUT_RATE)
    let initial_amount := if owner_payout ≤ 0 then 0 else initial_amount0
    let final_amount := max 0 (round2 (owner_payout - initial_amount))
    let owner_status := if final_amount > 0 then "pending" else "not_required"
    some { r with
      payment_status := "paid"
      company_commission_amount := commission
      owner_payout_amount := owner_payout
      owner_payout_status := owner_status
      owner_payout_released_at := none
      owner_initial_payout_amount := initial_amount
      owner_initial_payout_status := if initial_amount > 0 then "paid" else "not_required"
      owner_initial_payout_released_at := if initial_amount > 0 then some now else none
      owner_final_payout_amount := final_amount
      owner_final_payout_status := owner_status
      owner_final_payout_released_at := none }
  else
    some { r with
      payment_status := new_status
      company_commission_amount := 0
      owner_payout_amount := 0
      owner_payout_status := "pending"
      owner_payout_released_at := none
      owner_initial_payout_amount := 0
      owner_initial_payout_status := "pending"
      owner_initial_payout_released_at := none
      owner_final_payout_amount := 0
      owner_final_payout_status := "pending"
      owner_final_payout_released_at := none }

/-- `renter_respond_rental` (app.py lines 2680 to 2758): the renter answers a
counter offer.  The second component of the result is the availability flag
of the car (`cars.is_available`), passed in and possibly flipped.
Any action/state combination outside the two guarded branches only
redirects. -/
def renterRespondRental (now : Int) (action : String) (r : Rental)
    (car_available : Bool) : Rental × Bool :=
  if action = "accept_counter" ∧ r.owner_response = "counter" then
    -- Python: `rental["counter_amount"] or rental["total_amount"]`
    let counter_amount :=
      match r.counter_amount with
      | some c => if c = 0 then r.total_amount else c
      | none => r.total_amount
    let new_total := round2 counter_amount
    let delivery_fee_existing := r.delivery_fee
    let base_rental_updated := max 0 (round2 (new_total - delivery_fee_existing))
    ({ r with
        owner_response := "accepted"
        renter_response := "accepted"
        renter_response_at := some now
        total_amount := new_total
        rental_amount := base_rental_updated
        delivery_fee := delivery_fee_existing
        payment_status := "awaiting_payment"
        payment_due_at := some (now + 3600)
        payment_channel := "manual"
        company_commission_amount := 0
        owner_payout_amount := 0
        owner_payout_status := "pending"
        owner_payout_released_at := none }, car_available)
  else if action = "decline_counter" ∧ r.owner_response = "counter" then
    ({ r with
        renter_response := "declined"
        renter_response_at := some now
        status := "cancelled"
        cancel_reason := "Counter offer declined" }, true)
  else (r, car_available)

/-- `owner_respond_rental` (app.py lines 4086 to 4170): the owner answers a
booking request.  `counter_amount_form?` is the parsed form amount; `none`
stands for a `ValueError` in `float(...)`, which redirects without writing.
The second component of the result is the availability flag of the car. -/
def ownerRespondRental (now : Int) (action : String) (counter_amount_form? : Option ℚ)
    (reason note : String) (r : Rental) (car_available : Bool) : Rental × Bool :=
  if action = "accept" ∧ (r.owner_response = "pending" ∨ r.owner_response = "counter") then
    ({ r with
        owner_response := "accepted"
        owner_response_at := some now
        payment_status := "awaiting_payment"
        payment_due_at := some (now + 3600)
        payment_channel := "manual"
        company_commission_amount := 0
        owner_payout_amount := 0
        owner_payout_status := "pending"
        owner_payout_released_at := none
        owner_initial_payout_amount := 0
        owner_initial_payout_status := "pending"
        owner_initial_payout_released_at := none
        owner_final_payout_amount := 0
        owner_final_payout_status := "pending"
        owner_final_payout_released_at := none }, car_available)
  else if action = "reject" ∧ r.owner_response = "pending" then
    ({ r with
        owner_response := "rejected"
        owner_response_at := some now
        status := "cancelled"
        cancel_reason := reason }, true)
  else if action = "counter" ∧ r.owner_response = "pending" ∧ r.counter_used = false then
    match counter_amount_form? with
    | none => (r, car_available)
    | some amt =>
      ({ r with
          owner_response := "counter"
          owner_response_at := some now
          counter_amount := some amt
          counter_comment := note
          counter_used := true }, car_available)
  else (r, car_available)

/-- `cancel_rental` (app.py lines 3022 to 3043): renter cancellation, legal
only in status `booked` or `active` (otherwise 404, `none`).  The second
component of the result is the availability flag of the car, set to true. -/
def cancelRental (now : Int) (r : Rental) : Option (Rental × Bool) :=
  if r.status = "booked" ∨ r.status = "active" then
    some ({ r with
        status := "cancelled"
        end_time := some now
        renter_response := "cancelled_by_renter"
        renter_response_at := some now }, true)
  else none

/-- `owner_extend_rental` (app.py lines 3797 to 3903): the owner adds hours to
a booked or active rental.  Non positive `extra_hours` redirects and a rental
outside `booked`/`active` aborts: both are `none` (no write).  The zeroing
branch is keyed on the resulting status being `awaiting_payment`, which
covers both a `paid` rental flipped back and a rental that already was
`awaiting_payment`. -/
def ownerExtendRental (now : Int) (extra_hours : Int) (rate_per_hour : ℚ)
    (r : Rental) : Option Rental :=
  if extra_hours ≤ 0 then none
  else if ¬(r.status = "booked" ∨ r.status = "active") then none
  else
    -- Python: `parse_iso(rental["end_time"]) or naive_utcnow()`
    let end_dt := match r.end_time with | some t => t | none => now
    let new_end := end_dt + extra_hours * 3600
    let additional_amount := round2 (rate_per_hour * (extra_hours : ℚ))
    let new_rental_amount := round2 (r.rental_amount + additional_amount)
    let new_total := round2 (new_rental_amount + r.delivery_fee)
    let new_status := if r.payment_status = "paid" then "awaiting_payment" else r.payment_status
    let new_due := if r.payment_status = "paid" then some (now + 3600) else r.payment_due_at
    if new_status = "awaiting_payment" then
      some { r with
        end_time := some new_end
        rental_amount := new_rental_amount
        total_amount := new_total
        payment_status := new_status
        payment_due_at := new_due
        payment_channel := "manual"
        company_commission_amount := 0
        owner_payout_amount := 0
        owner_payout_status := "pending"
        owner_payout_released_at := none
        owner_initial_payout_amount := 0
        owner_initial_payout_status := "pending"
        owner_initial_payout_released_at := none
        owner_final_payout_amount := 0
        owner_final_payout_status := "pending"
        owner_final_payout_released_at := none }
    else
      -- the read back values: Python `x or "pending"` on the status columns
      let owner_payout_status :=
        if r.owner_payout_status = "" then "pending" else r.owner_payout_status
      let owner_initial_status :=
        if r.owner_initial_payout_status = "" then "pending" else r.owner_initial_payout_status
      let owner_final_status :=
        if r.owner_final_payout_status = "" then owner_payout_status
        else r.owner_final_payout_status
      some { r with
        end_time := some new_end
        rental_amount := new_rental_amount
        total_amount := new_total
        payment_status := new_status
        payment_due_at := new_due
        owner_payout_status := owner_payout_status
        owner_initial_payout_status := owner_initial_status
        owner_final_payout_status := owner_final_status }

/-- `owner_complete_rental` (app.py lines 3906 to 4030): the owner marks the
trip complete, legal only in status `booked` or `active` (otherwise 404,
`none`).  If payment was never confirmed the split is recomputed from
`total_amount` exactly as `finalize_rental_payment` computes it and the
payment is marked paid; then the final payout is released.  The second
component of the result is the availability flag of the car, set to true. -/
def ownerCompleteRental (now : Int) (r : Rental) : Option (Rental × Bool) :=
  if ¬(r.status = "booked" ∨ r.status = "active") then none
  else
    let retro := r.payment_status ≠ "paid"
    let commission :=
      if retro then round2 (r.total_amount * COMPANY_COMMISSION_RATE)
      else r.company_commission_amount
    let owner_net :=
      if retro then max 0 (round2 (r.total_amount - commission))
      else r.owner_payout_amount
    let initial_payout :=
      if retro then
        if owner_net ≤ 0 then 0 else round2 (owner_net * OWNER_INITIAL_PAYOUT_RATE)
      else r.owner_initial_payout_amount
    let final_payout :=
      if retro then max 0 (round2 (owner_net - initial_payout))
      else r.owner_final_payout_amount
    let payment_status_after := if retro then "paid" else r.payment_status
    let initial_status :=
      if retro then (if initial_payout > 0 then "paid" else "not_required")
      else (if r.owner_initial_payout_status = "" then "pending"
            else r.owner_initial_payout_status)
    let initial_released :=
      if retro then (if initial_payout > 0 then some now else none)
      else r.owner_initial_payout_released_at
    -- values of final_released and payout_released_at before the release block
    let final_released_pre :=
      if retro then (if final_payout = 0 then some now else none)
      else r.owner_final_payout_released_at
    let payout_released_pre :=
      if retro then (if final_payout = 0 then some now else none)
      else r.owner_payout_released_at
    -- the release block (app.py lines 3972 to 3981)
    let final_status := if final_payout > 0 then "paid" else "not_required"
    let final_released :=
      if final_payout > 0 then some now else some (final_released_pre.getD now)
    let owner_status := if final_payout > 0 then "paid" else "not_required"
    let payout_released_at :=
      if final_payout > 0 then some now else some (payout_released_pre.getD now)
    some ({ r with
        status := "completed"
        end_time := some now
        completed_at := some now
        payment_status := payment_status_after
        company_commission_amount := commission
        owner_payout_amount := owner_net
        owner_payout_status := owner_status
        owner_payout_released_at := payout_released_at
        owner_initial_payout_amount := initial_payout
        owner_initial_payout_status := initial_status
        owner_initial_payout_released_at := initial_released
        owner_final_payout_amount := final_payout
        owner_final_payout_status := final_status
        owner_final_payout_released_at := final_released }, true)

/-- State of one car listing at booking creation time: its availability flag
and the number of its rentals currently in status `booked` or `active`. -/
structure CarStore where
  is_available : Bool
  booked_count : Nat
deriving DecidableEq

/-- The availability check of `rent_car` (app.py lines 2377 to 2382): a plain
SELECT of `is_available` followed by a redirect when it is unset. -/
def rentCarGuard (s : CarStore) : Bool := s.is_available

/-- The write step of `rent_car` (app.py lines 2441 to 2486): INSERT a rental
in status booked, then run `UPDATE cars SET is_available = 0 WHERE id = ?`.
The UPDATE carries no `is_available` condition, so the commit does not
re-examine the availability flag at write time. -/
def rentCarCommit (s : CarStore) : CarStore :=
  { is_available := false, booked_count := s.booked_count + 1 }

/-- Interleaving of two concurrent `rent_car` requests against the same car in
which both availability reads happen before either write: read one, read two,
write one, write two.  Returns the final store and the success of each
request. -/
def rentCarTwoRequests (s : CarStore) : CarStore × Bool × Bool :=
  let ok1 := rentCarGuard s
  let ok2 := rentCarGuard s
  let s1 := if ok1 then rentCarCommit s else s
  let s2 := if ok2 then rentCarCommit s1 else s1
  (s2, ok1, ok2)

/-- A freshly created booking as `rent_car` inserts it (app.py lines 2441 to
2480): status booked, negotiation and payment pending, all payout fields at
their schema defaults.  Rental amount 900 plus delivery fee 100 gives total
1000. -/
def baseRental : Rental where
  status := "booked"
  end_time := some 7200
  completed_at := none
  discount_amount := 0
  rental_amount := 900
  delivery_fee := 100
  total_amount := 1000
  owner_response := "pending"
  owner_response_at := none
  counter_amount := none
  counter_comment := ""
  counter_used := false
  cancel_reason := ""
  payment_status := "pending"
  payment_due_at := none
  payment_confirmed_at := none
  payment_channel := "manual"
  payment_gateway := ""
  payment_reference := ""
  payment_order_id := ""
  company_commission_amount := 0
  owner_payout_amount := 0
  owner_payout_status := "pending"
  owner_payout_released_at := none
  owner_initial_payout_amount := 0
  owner_initial_payout_status := "pending"
  owner_initial_payout_released_at := none
  owner_final_payout_amount := 0
  owner_final_payout_status := "pending"
  owner_final_payout_released_at := none
  renter_response := ""
  renter_response_at := none

/-- `baseRental` after the owner counters at 500. -/
def counteredRental : Rental :=
  (ownerRespondRental 10 "counter" (some 500) "" "lower please" baseRental false).1

/-- `counteredRental` after an admin override to paid: the split of the still
current total 1000 is computed, in particular the initial payout becomes 90
with a release timestamp. -/
def counteredAdminPaidRental : Rental :=
  (adminUpdatePayment 20 "paid" counteredRental).getD counteredRental

/-- `counteredAdminPaidRental` after the renter accepts the counter offer:
payment status flips to awaiting_payment and the aggregate payout fields are
zeroed, while the initial and final split fields keep their values. -/
def acceptedCounterRental : Rental :=
  (renterRespondRental 30 "accept_counter" counteredAdminPaidRental false).1

/-- `baseRental` after the owner counters at the negative amount minus 100:
the form value parses as a float and no validation rejects it. -/
def negCounterRental : Rental :=
  (ownerRespondRental 10 "counter" (some (-100)) "" "glitch" baseRental false).1

/-- `negCounterRental` after the renter accepts the counter offer: the total
becomes minus 100 and both responses are accepted. -/
def negAcceptedRental : Rental :=
  (renterRespondRental 30 "accept_counter" negCounterRental false).1

/-- A booking whose owner accepted and that awaits payment, used as a witness
input. -/
def acceptedRental : Rental :=
  (ownerRespondRental 10 "accept" none "" "" baseRental false).1

end SelfDrive

namespace SelfDrive

/-- Rounding an integer changes nothing. -/
theorem roundHalfEven_intCast (n : ℤ) : roundHalfEven (n : ℚ) = n := by
  unfold roundHalfEven
  norm_num

/-- Round half to even moves a value up by at most one half. -/
theorem roundHalfEven_le (q : ℚ) : (roundHalfEven q : ℚ) ≤ q + 1/2 := by
  have h1 : (⌊q⌋ : ℚ) ≤ q := Int.floor_le q
  have h2 : q < ⌊q⌋ + 1 := Int.lt_floor_add_one q
  unfold roundHalfEven
  split_ifs with ha hb hc
  · linarith
  · push_cast
    linarith
  · linarith
  · push_cast
    have : ¬(1/2 < q - (⌊q⌋ : ℚ)) := hb
    linarith [not_lt.mp this]

/-- Round half to even moves a value down by at most one half. -/
theorem le_roundHalfEven (q : ℚ) : q - 1/2 ≤ (roundHalfEven q : ℚ) := by
  have h1 : (⌊q⌋ : ℚ) ≤ q := Int.floor_le q
  have h2 : q < ⌊q⌋ + 1 := Int.lt_floor_add_one q
  unfold roundHalfEven
  split_ifs with ha hb hc
  · linarith
  · push_cast
    linarith
  · have : ¬(q - (⌊q⌋ : ℚ) < 1/2) := ha
    linarith [not_lt.mp this]
  · push_cast
    linarith

/-- Rounding to two decimals always produces a whole number of paise. -/
theorem round2_twoDec (q : ℚ) : TwoDec (round2 q) := by
  refine ⟨roundHalfEven (q * 100), ?_⟩
  unfold round2
  field_simp

/-- Rounding to two decimals fixes a value that already is a whole number of paise. -/
theorem round2_eq_of_twoDec {q : ℚ} (h : TwoDec q) : round2 q = q := by
  obtain ⟨n, hn⟩ := h
  unfold round2
  rw [hn, roundHalfEven_intCast, ← hn]
  field_simp

/-- Whole numbers of paise are closed under addition. -/
theorem TwoDec.add {a b : ℚ} (ha : TwoDec a) (hb : TwoDec b) : TwoDec (a + b) := by
  obtain ⟨m, hm⟩ := ha
  obtain ⟨n, hn⟩ := hb
  exact ⟨m + n, by push_cast; rw [add_mul, hm, hn]⟩

/-- Whole numbers of paise are closed under subtraction. -/
theorem TwoDec.sub {a b : ℚ} (ha : TwoDec a) (hb : TwoDec b) : TwoDec (a - b) := by
  obtain ⟨m, hm⟩ := ha
  obtain ⟨n, hn⟩ := hb
  exact ⟨m - n, by push_cast; rw [sub_mul, hm, hn]⟩

/-- Whole numbers of paise are closed under multiplication by an integer. -/
theorem TwoDec.intMul {a : ℚ} (ha : TwoDec a) (k : ℤ) : TwoDec (a * (k : ℚ)) := by
  obtain ⟨m, hm⟩ := ha
  exact ⟨m * k, by push_cast; rw [mul_right_comm, hm]⟩

/-- For a nonnegative total that is a whole number of paise, the rounded ten percent commission never exceeds the total. -/
theorem round2_commission_le {t : ℚ} (h2 : TwoDec t) (h0 : 0 ≤ t) :
    round2 (t * COMPANY_COMMISSION_RATE) ≤ t := by
  obtain ⟨n, hn⟩ := h2
  have hq : t * COMPANY_COMMISSION_RATE * 100 = 10 * t := by
    unfold COMPANY_COMMISSION_RATE; ring
  have hb := roundHalfEven_le (t * COMPANY_COMMISSION_RATE * 100)
  rw [hq] at hb
  have hn0 : (0:ℚ) ≤ (n:ℚ) := by rw [← hn]; positivity
  have hcases : t = 0 ∨ 1/100 ≤ t := by
    have hz : (0:ℤ) ≤ n := by exact_mod_cast hn0
    rcases lt_or_eq_of_le hz with h | h
    · right
      have h1 : (1:ℚ) ≤ (n:ℚ) := by exact_mod_cast h
      nlinarith
    · left
      have hz2 : (n:ℚ) = 0 := by exact_mod_cast h.symm
      nlinarith
  unfold round2
  rw [hq]
  rcases hcases with h | h
  · subst h
    rw [show ((10:ℚ) * 0) = ((0:ℤ):ℚ) by norm_num, roundHalfEven_intCast]
    norm_num
  · have h100 : (roundHalfEven (10 * t) : ℚ) ≤ 100 * t := by linarith
    linarith

/-- Ledger identity: for a nonnegative total that is a whole number of paise, the rounded commission plus the clamped rounded remainder reconstructs the total exactly. -/
theorem commission_add_payout {t : ℚ} (h2 : TwoDec t) (h0 : 0 ≤ t) :
    round2 (t * COMPANY_COMMISSION_RATE)
      + max 0 (round2 (t - round2 (t * COMPANY_COMMISSION_RATE))) = t := by
  have hc2 : TwoDec (round2 (t * COMPANY_COMMISSION_RATE)) := round2_twoDec _
  have hcle : round2 (t * COMPANY_COMMISSION_RATE) ≤ t := round2_commission_le h2 h0
  have hsub : round2 (t - round2 (t * COMPANY_COMMISSION_RATE))
      = t - round2 (t * COMPANY_COMMISSION_RATE) := round2_eq_of_twoDec (h2.sub hc2)
  rw [hsub, max_eq_right (by linarith)]
  ring

end SelfDrive

namespace SelfDrive

/-- Claim C1, amended: at each of the three paths that set payment_status to paid (payment confirmation via finalize_rental_payment, the admin override to paid, and the retroactive computation at trip completion), company_commission_amount plus owner_payout_amount equals total_amount exactly (hence within 0.01), provided total_amount is a nonnegative whole number of paise. The nonnegativity precondition is forced by the counterexample below: a negative counter offer makes a paid booking violate the sum. -/
theorem paid_sum_invariant_established (now : Int) (ch gw ref : String)
    (pid? : Option String) (r : Rental) (h2 : TwoDec r.total_amount)
    (h0 : 0 ≤ r.total_amount) :
    ((finalizeRentalPayment now ch gw ref pid? r).1.payment_status = "paid" ∧
     (finalizeRentalPayment now ch gw ref pid? r).1.company_commission_amount +
       (finalizeRentalPayment now ch gw ref pid? r).1.owner_payout_amount =
       (finalizeRentalPayment now ch gw ref pid? r).1.total_amount) ∧
    (∀ r2, adminUpdatePayment now "paid" r = some r2 →
       r2.payment_status = "paid" ∧
       r2.company_commission_amount + r2.owner_payout_amount = r2.total_amount) ∧
    (∀ p, r.payment_status ≠ "paid" → ownerCompleteRental now r = some p →
       p.1.payment_status = "paid" ∧
       p.1.company_commission_amount + p.1.owner_payout_amount = p.1.total_amount) := by
  refine ⟨⟨rfl, ?_⟩, ?_, ?_⟩
  · simp only [finalizeRentalPayment]
    exact commission_add_payout h2 h0
  · intro r2 hr2
    simp only [adminUpdatePayment] at hr2
    norm_num at hr2
    subst hr2
    exact ⟨rfl, commission_add_payout h2 h0⟩
  · intro p hps hp
    by_cases hguard : r.status = "booked" ∨ r.status = "active"
    · simp only [ownerCompleteRental] at hp
      rw [if_neg (not_not_intro hguard), Option.some_inj] at hp
      subst hp
      refine ⟨?_, ?_⟩
      · simp only [ne_eq, hps, not_false_eq_true, ite_true]
      · simp only [ne_eq, hps, not_false_eq_true, ite_true]
        exact commission_add_payout h2 h0
    · simp only [ownerCompleteRental] at hp
      rw [if_pos hguard] at hp
      exact absurd hp (by simp)

end SelfDrive

namespace SelfDrive

/-- Claim C1 witness: the amended claim evaluated at baseRental with total 1000. -/
theorem paid_sum_invariant_witness :
    TwoDec baseRental.total_amount ∧ 0 ≤ baseRental.total_amount ∧
    (((finalizeRentalPayment 0 "upi" "manual" "" none baseRental).1.payment_status = "paid" ∧
      (finalizeRentalPayment 0 "upi" "manual" "" none baseRental).1.company_commission_amount +
        (finalizeRentalPayment 0 "upi" "manual" "" none baseRental).1.owner_payout_amount =
        (finalizeRentalPayment 0 "upi" "manual" "" none baseRental).1.total_amount) ∧
     (∀ r2, adminUpdatePayment 0 "paid" baseRental = some r2 →
        r2.payment_status = "paid" ∧
        r2.company_commission_amount + r2.owner_payout_amount = r2.total_amount) ∧
     (∀ p, baseRental.payment_status ≠ "paid" → ownerCompleteRental 0 baseRental = some p →
        p.1.payment_status = "paid" ∧
        p.1.company_commission_amount + p.1.owner_payout_amount = p.1.total_amount)) :=
  ⟨⟨100000, by norm_num [baseRental]⟩, by norm_num [baseRental],
   paid_sum_invariant_established 0 "upi" "manual" "" none baseRental
     ⟨100000, by norm_num [baseRental]⟩ (by norm_num [baseRental])⟩

/-- Claim C1 counterexample: starting from baseRental, the owner counters at minus 100, the renter accepts, and payment confirmation succeeds; the booking ends with payment_status paid, total_amount minus 100, and commission plus owner payout equal to minus 10, which misses the total by 90, far outside the 0.01 tolerance. So the claim as stated is false on the code. -/
theorem paid_sum_negative_total_cex :
    negAcceptedRental.owner_response = "accepted" ∧
    negAcceptedRental.total_amount = -100 ∧
    (renterConfirmPayment 40 "upi" negAcceptedRental).map
        (fun p => (p.1.payment_status,
          p.1.company_commission_amount + p.1.owner_payout_amount, p.1.total_amount))
      = some ("paid", -10, -100) ∧
    ¬(|(-10 : ℚ) - (-100)| ≤ 1/100) := by
  refine ⟨by decide, by decide, by decide, by norm_num⟩

/-- Claim C2: the claim asserts a single conditional write, but rent_car performs a SELECT of is_available followed by an unconditional UPDATE (no is_available condition in its WHERE clause). In the interleaving where both reads precede both writes, two concurrent requests on an available car both succeed and the car ends with two rentals in status booked; the last conjunct shows the commit ignores the availability flag entirely. This contradicts the hard requirement the specification mandates, so the code is at fault. -/
theorem rent_car_race_both_requests_succeed :
    (rentCarTwoRequests ⟨true, 0⟩).2.1 = true ∧
    (rentCarTwoRequests ⟨true, 0⟩).2.2 = true ∧
    (rentCarTwoRequests ⟨true, 0⟩).1.booked_count = 2 ∧
    rentCarCommit ⟨false, 0⟩ = ⟨false, 1⟩ := by
  decide

/-- Claim C7: the fare calculator at hourly rate 100, daily rate 2000, a 30 hour window and no promo code charges one full day plus a 6 hour remainder capped at the daily rate: base 2000 plus min 2000 600, so 2600, discount 0, total 2600, no promo applied. -/
theorem fare_thirty_hours_quote :
    (calculate_pricing 100 2000 0 (30 * 3600) none).base_amount = 2600 ∧
    (calculate_pricing 100 2000 0 (30 * 3600) none).discount = 0 ∧
    (calculate_pricing 100 2000 0 (30 * 3600) none).total = 2600 ∧
    (calculate_pricing 100 2000 0 (30 * 3600) none).promo_applied = none := by
  decide

end SelfDrive

namespace SelfDrive

/-- Claim C3, amended: for every booking with owner_response counter, accept_counter adopts the counter amount as the new total_amount (falling back to the existing total_amount when the stored counter amount is NULL or zero, as the Python or does), recomputes rental_amount as the clamp max 0 (new total minus delivery_fee), sets both responses to accepted, sets payment_status awaiting_payment with a deadline one hour ahead, and resets company_commission_amount, owner_payout_amount, owner_payout_status and owner_payout_released_at to zero and pending, while the initial and final payout split fields are left unchanged, not reset as the claim states. -/
theorem accept_counter_updates (now : Int) (r : Rental) (av : Bool)
    (h : r.owner_response = "counter") :
    ((∀ c, r.counter_amount = some c → c ≠ 0 →
       (renterRespondRental now "accept_counter" r av).1.total_amount = round2 c) ∧
     (r.counter_amount = none ∨ r.counter_amount = some 0 →
       (renterRespondRental now "accept_counter" r av).1.total_amount
         = round2 r.total_amount) ∧
     (renterRespondRental now "accept_counter" r av).1.rental_amount
       = max 0 (round2 ((renterRespondRental now "accept_counter" r av).1.total_amount
           - r.delivery_fee))) ∧
    ((renterRespondRental now "accept_counter" r av).1.owner_response = "accepted" ∧
     (renterRespondRental now "accept_counter" r av).1.renter_response = "accepted" ∧
     (renterRespondRental now "accept_counter" r av).1.payment_status = "awaiting_payment" ∧
     (renterRespondRental now "accept_counter" r av).1.payment_due_at = some (now + 3600)) ∧
    ((renterRespondRental now "accept_counter" r av).1.company_commission_amount = 0 ∧
     (renterRespondRental now "accept_counter" r av).1.owner_payout_amount = 0 ∧
     (renterRespondRental now "accept_counter" r av).1.owner_payout_status = "pending" ∧
     (renterRespondRental now "accept_counter" r av).1.owner_payout_released_at = none) ∧
    ((renterRespondRental now "accept_counter" r av).1.owner_initial_payout_amount
       = r.owner_initial_payout_amount ∧
     (renterRespondRental now "accept_counter" r av).1.owner_initial_payout_status
       = r.owner_initial_payout_status ∧
     (renterRespondRental now "accept_counter" r av).1.owner_initial_payout_released_at
       = r.owner_initial_payout_released_at ∧
     (renterRespondRental now "accept_counter" r av).1.owner_final_payout_amount
       = r.owner_final_payout_amount ∧
     (renterRespondRental now "accept_counter" r av).1.owner_final_payout_status
       = r.owner_final_payout_status ∧
     (renterRespondRental now "accept_counter" r av).1.owner_final_payout_released_at
       = r.owner_final_payout_released_at) := by
  refine ⟨⟨?_, ?_, ?_⟩, ?_, ?_, ?_⟩
  · intro c hc hc0
    simp [renterRespondRental, h, hc, hc0]
  · rintro (hc | hc) <;> simp [renterRespondRental, h, hc]
  · simp only [renterRespondRental, h, String.reduceEq, and_true, if_true, ite_true,
      if_false, ite_false, true_and, reduceCtorEq]
  · simp only [renterRespondRental, h, String.reduceEq, and_true, if_true, ite_true,
      if_false, ite_false, true_and, and_self, reduceCtorEq]
  · simp only [renterRespondRental, h, String.reduceEq, and_true, if_true, ite_true,
      if_false, ite_false, true_and, and_self, reduceCtorEq]
  · simp only [renterRespondRental, h, String.reduceEq, and_true, if_true, ite_true,
      if_false, ite_false, true_and, and_self, reduceCtorEq]

/-- Claim C3 counterexample: on a booking in counter state that an admin override had marked paid (initial payout 90, final payout 810), accept_counter leaves both split amounts at their old nonzero values, refuting the reset of the initial and final payout split the claim asserts. -/
theorem accept_counter_keeps_initial_split_cex :
    counteredAdminPaidRental.owner_response = "counter" ∧
    counteredAdminPaidRental.owner_initial_payout_amount = 90 ∧
    counteredAdminPaidRental.owner_final_payout_amount = 810 ∧
    (renterRespondRental 30 "accept_counter" counteredAdminPaidRental false).1.owner_initial_payout_amount = 90 ∧
    (renterRespondRental 30 "accept_counter" counteredAdminPaidRental false).1.owner_initial_payout_status = "paid" ∧
    (renterRespondRental 30 "accept_counter" counteredAdminPaidRental false).1.owner_final_payout_amount = 810 ∧
    ¬((renterRespondRental 30 "accept_counter" counteredAdminPaidRental false).1.owner_initial_payout_amount = 0 ∧
      (renterRespondRental 30 "accept_counter" counteredAdminPaidRental false).1.owner_final_payout_amount = 0) := by
  decide

end SelfDrive

namespace SelfDrive

/-- Arithmetic core of the accept_counter clamp: for whole numbers of paise T and fee, the clamp max 0 (round2 (T - fee)) reconstructs T when fee is at most T and collapses to zero, strictly below the sum, when T is below fee. -/
theorem accept_counter_clamp_core (T fee : ℚ) (hT : TwoDec T) (hfee : TwoDec fee) :
    (fee ≤ T → T = max 0 (round2 (T - fee)) + fee) ∧
    (T < fee → max 0 (round2 (T - fee)) = 0 ∧ T < max 0 (round2 (T - fee)) + fee) := by
  have hsub : round2 (T - fee) = T - fee := round2_eq_of_twoDec (hT.sub hfee)
  refine ⟨fun hle => ?_, fun hlt => ?_⟩
  · rw [hsub, max_eq_right (by linarith)]
    ring
  · rw [hsub, max_eq_left (by linarith)]
    constructor
    · rfl
    · linarith

/-- Claim C8: in accept_counter the recomputed rental_amount is clamped at zero: when the adopted counter amount (the new total_amount) is at least the delivery fee, the updated booking satisfies total_amount equals rental_amount plus delivery_fee; when it is below the delivery fee, rental_amount becomes 0 and total_amount is strictly less than rental_amount plus delivery_fee. -/
theorem accept_counter_rental_amount_clamped (now : Int) (r : Rental) (av : Bool)
    (h : r.owner_response = "counter") (hfee : TwoDec r.delivery_fee) :
    (r.delivery_fee ≤ (renterRespondRental now "accept_counter" r av).1.total_amount →
      (renterRespondRental now "accept_counter" r av).1.total_amount =
        (renterRespondRental now "accept_counter" r av).1.rental_amount + r.delivery_fee) ∧
    ((renterRespondRental now "accept_counter" r av).1.total_amount < r.delivery_fee →
      (renterRespondRental now "accept_counter" r av).1.rental_amount = 0 ∧
      (renterRespondRental now "accept_counter" r av).1.total_amount <
        (renterRespondRental now "accept_counter" r av).1.rental_amount + r.delivery_fee) := by
  simp only [renterRespondRental, h, String.reduceEq, and_true, and_self, if_true, ite_true,
    if_false, ite_false, true_and, reduceCtorEq]
  exact accept_counter_clamp_core _ _ (round2_twoDec _) hfee

/-- Claim C9: renter cancellation of a booked or active booking modifies only status, end_time, renter_response and renter_response_at, flips the availability flag of the car to true, and leaves every monetary, negotiation, payment and payout field unchanged; in particular a paid booking keeps payment_status paid and its full split. -/
theorem cancel_rental_frame (now : Int) (r : Rental)
    (h : r.status = "booked" ∨ r.status = "active") :
    ∃ p, cancelRental now r = some p ∧
      p.1.status = "cancelled" ∧ p.1.end_time = some now ∧
      p.1.renter_response = "cancelled_by_renter" ∧ p.1.renter_response_at = some now ∧
      p.2 = true ∧
      p.1.rental_amount = r.rental_amount ∧ p.1.delivery_fee = r.delivery_fee ∧
      p.1.discount_amount = r.discount_amount ∧ p.1.total_amount = r.total_amount ∧
      p.1.owner_response = r.owner_response ∧ p.1.owner_response_at = r.owner_response_at ∧
      p.1.counter_amount = r.counter_amount ∧ p.1.counter_comment = r.counter_comment ∧
      p.1.counter_used = r.counter_used ∧ p.1.cancel_reason = r.cancel_reason ∧
      p.1.payment_status = r.payment_status ∧ p.1.payment_due_at = r.payment_due_at ∧
      p.1.payment_confirmed_at = r.payment_confirmed_at ∧
      p.1.payment_channel = r.payment_channel ∧ p.1.payment_gateway = r.payment_gateway ∧
      p.1.payment_reference = r.payment_reference ∧
      p.1.payment_order_id = r.payment_order_id ∧
      p.1.company_commission_amount = r.company_commission_amount ∧
      p.1.owner_payout_amount = r.owner_payout_amount ∧
      p.1.owner_payout_status = r.owner_payout_status ∧
      p.1.owner_payout_released_at = r.owner_payout_released_at ∧
      p.1.owner_initial_payout_amount = r.owner_initial_payout_amount ∧
      p.1.owner_initial_payout_status = r.owner_initial_payout_status ∧
      p.1.owner_initial_payout_released_at = r.owner_initial_payout_released_at ∧
      p.1.owner_final_payout_amount = r.owner_final_payout_amount ∧
      p.1.owner_final_payout_status = r.owner_final_payout_status ∧
      p.1.owner_final_payout_released_at = r.owner_final_payout_released_at ∧
      p.1.completed_at = r.completed_at ∧
      (r.payment_status = "paid" → p.1.payment_status = "paid") := by
  refine ⟨_, if_pos h, rfl, rfl, rfl, rfl, rfl, rfl, rfl, rfl, rfl, rfl, rfl, rfl, rfl,
    rfl, rfl, rfl, rfl, rfl, rfl, rfl, rfl, rfl, rfl, rfl, rfl, rfl, rfl, rfl, rfl, rfl,
    rfl, rfl, rfl, fun hp => hp⟩

/-- Claim C10: payment confirmation is accepted for any booking with owner_response accepted regardless of the current payment_status, including an already paid one, and running it twice yields the same commission, owner payout, initial and final payout amounts and the same returned breakdown as running it once. -/
theorem confirm_payment_idempotent (now1 now2 : Int) (ch1 ch2 : String) (r : Rental)
    (h : r.owner_response = "accepted") :
    ∃ p1, renterConfirmPayment now1 ch1 r = some p1 ∧
    ∃ p2, renterConfirmPayment now2 ch2 p1.1 = some p2 ∧
      p2.1.company_commission_amount = p1.1.company_commission_amount ∧
      p2.1.owner_payout_amount = p1.1.owner_payout_amount ∧
      p2.1.owner_initial_payout_amount = p1.1.owner_initial_payout_amount ∧
      p2.1.owner_final_payout_amount = p1.1.owner_final_payout_amount ∧
      p2.2 = p1.2 := by
  refine ⟨_, if_pos h, _, if_pos h, rfl, rfl, rfl, rfl, rfl⟩

end SelfDrive

namespace SelfDrive

/-- Claim C4: completing a booked or active trip whose payment was never confirmed retroactively computes exactly the commission, owner net, initial and final payout that finalize_rental_payment would compute from the current total_amount and marks the payment paid; and in every completion the final payout is released with status paid and the completion timestamp when its amount is positive, while a zero amount gets status not_required. -/
theorem trip_completion_retroactive_split (now : Int) (r : Rental)
    (h : r.status = "booked" ∨ r.status = "active") :
    ∃ p, ownerCompleteRental now r = some p ∧
      (r.payment_status ≠ "paid" →
        p.1.payment_status = "paid" ∧
        p.1.company_commission_amount
          = (finalizeRentalPayment now "manual" "manual" "manual-confirmation" none r).2.commission ∧
        p.1.owner_payout_amount
          = (finalizeRentalPayment now "manual" "manual" "manual-confirmation" none r).2.owner_net ∧
        p.1.owner_initial_payout_amount
          = (finalizeRentalPayment now "manual" "manual" "manual-confirmation" none r).2.initial_payout ∧
        p.1.owner_final_payout_amount
          = (finalizeRentalPayment now "manual" "manual" "manual-confirmation" none r).2.final_payout) ∧
      (0 < p.1.owner_final_payout_amount →
        p.1.owner_final_payout_status = "paid" ∧
        p.1.owner_final_payout_released_at = some now ∧
        p.1.owner_payout_status = "paid") ∧
      (p.1.owner_final_payout_amount = 0 →
        p.1.owner_final_payout_status = "not_required") := by
  refine ⟨_, if_neg (not_not_intro h), ?_, ?_, ?_⟩
  · intro hps
    refine ⟨?_, ?_, ?_, ?_, ?_⟩
    · simp only [ne_eq, hps, not_false_eq_true, ite_true]
    · simp only [ne_eq, hps, not_false_eq_true, ite_true, finalizeRentalPayment]
    · simp only [ne_eq, hps, not_false_eq_true, ite_true, finalizeRentalPayment]
    · simp only [ne_eq, hps, not_false_eq_true, ite_true, finalizeRentalPayment]
    · simp only [ne_eq, hps, not_false_eq_true, ite_true, finalizeRentalPayment, ite_self]
  · intro hpos
    exact ⟨if_pos hpos, if_pos hpos, if_pos hpos⟩
  · have key : ∀ F : ℚ, F = 0 → (if F > 0 then "paid" else "not_required") = "not_required" := by
      intro F hF
      rw [hF]
      norm_num
    exact fun hzero => key _ hzero

end SelfDrive

namespace SelfDrive

/-- Claim C6: once counter_used is true it stays true across every modelled operation (owner response, renter response, payment finalization, admin override, cancellation, extension, completion), and a second counter action on such a booking is an exact no-op: the booking and the availability flag are returned unchanged, so counter_amount and owner_response keep their values. -/
theorem counter_used_monotone (now : Int) (action : String) (amt? : Option ℚ)
    (reason note ch gw ref ns : String) (pid? : Option String) (extra : Int)
    (rate : ℚ) (av : Bool) (r : Rental) (h : r.counter_used = true) :
    (ownerRespondRental now action amt? reason note r av).1.counter_used = true ∧
    (renterRespondRental now action r av).1.counter_used = true ∧
    (finalizeRentalPayment now ch gw ref pid? r).1.counter_used = true ∧
    (∀ r2, adminUpdatePayment now ns r = some r2 → r2.counter_used = true) ∧
    (∀ p, cancelRental now r = some p → p.1.counter_used = true) ∧
    (∀ r2, ownerExtendRental now extra rate r = some r2 → r2.counter_used = true) ∧
    (∀ p, ownerCompleteRental now r = some p → p.1.counter_used = true) ∧
    ownerRespondRental now "counter" amt? reason note r av = (r, av) := by
  refine ⟨?_, ?_, h, ?_, ?_, ?_, ?_, ?_⟩
  · unfold ownerRespondRental
    split_ifs
    all_goals
      first
        | exact h
        | (cases amt? <;> first | exact h | rfl)
  · unfold renterRespondRental
    split_ifs <;> exact h
  · intro r2 hr2
    unfold adminUpdatePayment at hr2
    split_ifs at hr2
    all_goals
      first
        | exact Option.noConfusion hr2
        | (injection hr2 with hr2; subst hr2; exact h)
  · intro p hp
    unfold cancelRental at hp
    split_ifs at hp
    all_goals
      first
        | exact Option.noConfusion hp
        | (injection hp with hp; subst hp; exact h)
  · intro r2 hr2
    simp only [ownerExtendRental] at hr2
    split_ifs at hr2
    all_goals
      first
        | exact Option.noConfusion hr2
        | (injection hr2 with hr2; subst hr2; exact h)
  · intro p hp
    unfold ownerCompleteRental at hp
    split_ifs at hp
    all_goals
      first
        | exact Option.noConfusion hp
        | (injection hp with hp; subst hp; exact h)
  · unfold ownerRespondRental
    have hfalse : ¬("counter" = "accept" ∧
        (r.owner_response = "pending" ∨ r.owner_response = "counter")) := by
      intro hcontra
      exact absurd hcontra.1 (by decide)
    have hfalse2 : ¬("counter" = "reject" ∧ r.owner_response = "pending") := by
      intro hcontra
      exact absurd hcontra.1 (by decide)
    have hfalse3 : ¬("counter" = "counter" ∧ r.owner_response = "pending" ∧
        r.counter_used = false) := by
      intro hcontra
      rw [h] at hcontra
      exact absurd hcontra.2.2 (by decide)
    rw [if_neg hfalse, if_neg hfalse2, if_neg hfalse3]

end SelfDrive

namespace SelfDrive

/-- Claim C5, amended: extending a booked or active rental by a positive number of hours adds extra_hours times hourly_rate to rental_amount and recomputes total_amount as rental_amount plus delivery_fee (exactly, when the stored amounts and the rate are whole numbers of paise). A paid booking flips to awaiting_payment with a fresh one hour deadline and every commission and payout field zeroed. When the booking is in neither paid nor awaiting_payment state the payment fields are untouched. But, contrary to the claim, a booking already in awaiting_payment also has its commission and payout fields zeroed (keeping its old deadline), because the zeroing branch keys on the resulting status. -/
theorem owner_extend_updates (now extra : Int) (rate : ℚ) (r : Rental)
    (hextra : 0 < extra) (hstat : r.status = "booked" ∨ r.status = "active")
    (hrent : TwoDec r.rental_amount) (hrate : TwoDec rate) (hfee : TwoDec r.delivery_fee)
    (hs1 : r.owner_payout_status ≠ "") (hs2 : r.owner_initial_payout_status ≠ "")
    (hs3 : r.owner_final_payout_status ≠ "") :
    (ownerExtendRental now extra rate r).isSome = true ∧
    ∀ r2, ownerExtendRental now extra rate r = some r2 →
      (r2.rental_amount = r.rental_amount + rate * (extra : ℚ) ∧
       r2.total_amount = r2.rental_amount + r.delivery_fee) ∧
      (r.payment_status = "paid" →
        r2.payment_status = "awaiting_payment" ∧ r2.payment_due_at = some (now + 3600) ∧
        r2.company_commission_amount = 0 ∧ r2.owner_payout_amount = 0 ∧
        r2.owner_payout_status = "pending" ∧ r2.owner_payout_released_at = none ∧
        r2.owner_initial_payout_amount = 0 ∧ r2.owner_initial_payout_status = "pending" ∧
        r2.owner_initial_payout_released_at = none ∧
        r2.owner_final_payout_amount = 0 ∧ r2.owner_final_payout_status = "pending" ∧
        r2.owner_final_payout_released_at = none) ∧
      (r.payment_status ≠ "paid" ∧ r.payment_status ≠ "awaiting_payment" →
        r2.payment_status = r.payment_status ∧ r2.payment_due_at = r.payment_due_at ∧
        r2.payment_channel = r.payment_channel ∧
        r2.company_commission_amount = r.company_commission_amount ∧
        r2.owner_payout_amount = r.owner_payout_amount ∧
        r2.owner_payout_status = r.owner_payout_status ∧
        r2.owner_payout_released_at = r.owner_payout_released_at ∧
        r2.owner_initial_payout_amount = r.owner_initial_payout_amount ∧
        r2.owner_initial_payout_status = r.owner_initial_payout_status ∧
        r2.owner_initial_payout_released_at = r.owner_initial_payout_released_at ∧
        r2.owner_final_payout_amount = r.owner_final_payout_amount ∧
        r2.owner_final_payout_status = r.owner_final_payout_status ∧
        r2.owner_final_payout_released_at = r.owner_final_payout_released_at) ∧
      (r.payment_status = "awaiting_payment" →
        r2.payment_status = "awaiting_payment" ∧ r2.payment_due_at = r.payment_due_at ∧
        r2.company_commission_amount = 0 ∧ r2.owner_payout_amount = 0 ∧
        r2.owner_initial_payout_amount = 0 ∧ r2.owner_final_payout_amount = 0) := by
  have hadd : round2 (rate * (extra : ℚ)) = rate * (extra : ℚ) :=
    round2_eq_of_twoDec (hrate.intMul extra)
  have hplain : round2 (r.rental_amount + rate * (extra : ℚ))
      = r.rental_amount + rate * (extra : ℚ) :=
    round2_eq_of_twoDec (hrent.add (hrate.intMul extra))
  have htot : round2 ((r.rental_amount + rate * (extra : ℚ)) + r.delivery_fee)
      = (r.rental_amount + rate * (extra : ℚ)) + r.delivery_fee :=
    round2_eq_of_twoDec ((hrent.add (hrate.intMul extra)).add hfee)
  have hne : ¬ extra ≤ 0 := not_le.mpr hextra
  have hns : ¬¬(r.status = "booked" ∨ r.status = "active") := not_not_intro hstat
  constructor
  · simp only [ownerExtendRental, if_neg hne, if_neg hns]
    split_ifs <;> rfl
  · intro r2 hr2
    by_cases hpaid : r.payment_status = "paid"
    · simp only [ownerExtendRental, if_neg hne, if_neg hns, hpaid, String.reduceEq,
        ite_true, if_true] at hr2
      injection hr2 with hr2
      subst hr2
      refine ⟨⟨?_, ?_⟩, fun _ => ⟨rfl, rfl, rfl, rfl, rfl, rfl, rfl, rfl, rfl, rfl, rfl, rfl⟩,
        fun hcontra => absurd hpaid hcontra.1,
        fun hp => by rw [hpaid] at hp; exact absurd hp (by decide)⟩
      · rw [hadd, hplain]
      · rw [hadd, hplain, htot]
    · by_cases hawait : r.payment_status = "awaiting_payment"
      · simp only [ownerExtendRental, if_neg hne, if_neg hns, hpaid, hawait, String.reduceEq,
          ite_true, ite_false, if_true, if_false] at hr2
        injection hr2 with hr2
        subst hr2
        refine ⟨⟨?_, ?_⟩, fun hp => absurd hp hpaid,
          fun hcontra => absurd hawait hcontra.2,
          fun _ => ⟨rfl, rfl, rfl, rfl, rfl, rfl⟩⟩
        · rw [hadd, hplain]
        · rw [hadd, hplain, htot]
      · simp only [ownerExtendRental, if_neg hne, if_neg hns, hpaid, hawait, String.reduceEq,
          ite_true, ite_false, if_true, if_false, hs1, hs2, hs3] at hr2
        injection hr2 with hr2
        subst hr2
        refine ⟨⟨?_, ?_⟩, fun hp => absurd hp hpaid,
          fun _ => ⟨rfl, rfl, rfl, rfl, rfl, rfl, rfl, rfl, rfl, rfl, rfl, rfl, rfl⟩,
          fun hp => absurd hp hawait⟩
        · rw [hadd, hplain]
        · rw [hadd, hplain, htot]

end SelfDrive

namespace SelfDrive

/-- Claim C3 witness: the amended claim evaluated at counteredRental with counter amount 500. -/
theorem accept_counter_updates_witness :
    counteredRental.owner_response = "counter" ∧
    (((∀ c, counteredRental.counter_amount = some c → c ≠ 0 →
        (renterRespondRental 30 "accept_counter" counteredRental false).1.total_amount
          = round2 c) ∧
      (counteredRental.counter_amount = none ∨ counteredRental.counter_amount = some 0 →
        (renterRespondRental 30 "accept_counter" counteredRental false).1.total_amount
          = round2 counteredRental.total_amount) ∧
      (renterRespondRental 30 "accept_counter" counteredRental false).1.rental_amount
        = max 0 (round2
            ((renterRespondRental 30 "accept_counter" counteredRental false).1.total_amount
              - counteredRental.delivery_fee))) ∧
     ((renterRespondRental 30 "accept_counter" counteredRental false).1.owner_response = "accepted" ∧
      (renterRespondRental 30 "accept_counter" counteredRental false).1.renter_response = "accepted" ∧
      (renterRespondRental 30 "accept_counter" counteredRental false).1.payment_status = "awaiting_payment" ∧
      (renterRespondRental 30 "accept_counter" counteredRental false).1.payment_due_at = some (30 + 3600)) ∧
     ((renterRespondRental 30 "accept_counter" counteredRental false).1.company_commission_amount = 0 ∧
      (renterRespondRental 30 "accept_counter" counteredRental false).1.owner_payout_amount = 0 ∧
      (renterRespondRental 30 "accept_counter" counteredRental false).1.owner_payout_status = "pending" ∧
      (renterRespondRental 30 "accept_counter" counteredRental false).1.owner_payout_released_at = none) ∧
     ((renterRespondRental 30 "accept_counter" counteredRental false).1.owner_initial_payout_amount
        = counteredRental.owner_initial_payout_amount ∧
      (renterRespondRental 30 "accept_counter" counteredRental false).1.owner_initial_payout_status
        = counteredRental.owner_initial_payout_status ∧
      (renterRespondRental 30 "accept_counter" counteredRental false).1.owner_initial_payout_released_at
        = counteredRental.owner_initial_payout_released_at ∧
      (renterRespondRental 30 "accept_counter" counteredRental false).1.owner_final_payout_amount
        = counteredRental.owner_final_payout_amount ∧
      (renterRespondRental 30 "accept_counter" counteredRental false).1.owner_final_payout_status
        = counteredRental.owner_final_payout_status ∧
      (renterRespondRental 30 "accept_counter" counteredRental false).1.owner_final_payout_released_at
        = counteredRental.owner_final_payout_released_at)) :=
  ⟨by decide, accept_counter_updates 30 counteredRental false (by decide)⟩

/-- Claim C4 witness: the claim evaluated at baseRental, which is booked and unpaid. -/
theorem trip_completion_retroactive_split_witness :
    (baseRental.status = "booked" ∨ baseRental.status = "active") ∧
    ∃ p, ownerCompleteRental 60 baseRental = some p ∧
      (baseRental.payment_status ≠ "paid" →
        p.1.payment_status = "paid" ∧
        p.1.company_commission_amount
          = (finalizeRentalPayment 60 "manual" "manual" "manual-confirmation" none baseRental).2.commission ∧
        p.1.owner_payout_amount
          = (finalizeRentalPayment 60 "manual" "manual" "manual-confirmation" none baseRental).2.owner_net ∧
        p.1.owner_initial_payout_amount
          = (finalizeRentalPayment 60 "manual" "manual" "manual-confirmation" none baseRental).2.initial_payout ∧
        p.1.owner_final_payout_amount
          = (finalizeRentalPayment 60 "manual" "manual" "manual-confirmation" none baseRental).2.final_payout) ∧
      (0 < p.1.owner_final_payout_amount →
        p.1.owner_final_payout_status = "paid" ∧
        p.1.owner_final_payout_released_at = some 60 ∧
        p.1.owner_payout_status = "paid") ∧
      (p.1.owner_final_payout_amount = 0 →
        p.1.owner_final_payout_status = "not_required") :=
  ⟨Or.inl (by decide), trip_completion_retroactive_split 60 baseRental (Or.inl (by decide))⟩

/-- Claim C6 witness: the claim evaluated at counteredRental, whose counter_used flag is set. -/
theorem counter_used_monotone_witness :
    counteredRental.counter_used = true ∧
    ((ownerRespondRental 40 "accept" (some 7) "a" "b" counteredRental false).1.counter_used = true ∧
     (renterRespondRental 40 "accept" counteredRental false).1.counter_used = true ∧
     (finalizeRentalPayment 40 "upi" "manual" "x" (some "oid") counteredRental).1.counter_used = true ∧
     (∀ r2, adminUpdatePayment 40 "pending" counteredRental = some r2 → r2.counter_used = true) ∧
     (∀ p, cancelRental 40 counteredRental = some p → p.1.counter_used = true) ∧
     (∀ r2, ownerExtendRental 40 3 100 counteredRental = some r2 → r2.counter_used = true) ∧
     (∀ p, ownerCompleteRental 40 counteredRental = some p → p.1.counter_used = true) ∧
     ownerRespondRental 40 "counter" (some 7) "a" "b" counteredRental false
       = (counteredRental, false)) :=
  ⟨by decide,
   counter_used_monotone 40 "accept" (some 7) "a" "b" "upi" "manual" "x" "pending"
     (some "oid") 3 100 false counteredRental (by decide)⟩

/-- Claim C5 witness: the amended claim evaluated at baseRental with two extra hours at rate 100. -/
theorem owner_extend_updates_witness :
    0 < (2 : Int) ∧
    (baseRental.status = "booked" ∨ baseRental.status = "active") ∧
    ((ownerExtendRental 50 2 100 baseRental).isSome = true ∧
     ∀ r2, ownerExtendRental 50 2 100 baseRental = some r2 →
      (r2.rental_amount = baseRental.rental_amount + 100 * ((2 : Int) : ℚ) ∧
       r2.total_amount = r2.rental_amount + baseRental.delivery_fee) ∧
      (baseRental.payment_status = "paid" →
        r2.payment_status = "awaiting_payment" ∧ r2.payment_due_at = some (50 + 3600) ∧
        r2.company_commission_amount = 0 ∧ r2.owner_payout_amount = 0 ∧
        r2.owner_payout_status = "pending" ∧ r2.owner_payout_released_at = none ∧
        r2.owner_initial_payout_amount = 0 ∧ r2.owner_initial_payout_status = "pending" ∧
        r2.owner_initial_payout_released_at = none ∧
        r2.owner_final_payout_amount = 0 ∧ r2.owner_final_payout_status = "pending" ∧
        r2.owner_final_payout_released_at = none) ∧
      (baseRental.payment_status ≠ "paid" ∧ baseRental.payment_status ≠ "awaiting_payment" →
        r2.payment_status = baseRental.payment_status ∧
        r2.payment_due_at = baseRental.payment_due_at ∧
        r2.payment_channel = baseRental.payment_channel ∧
        r2.company_commission_amount = baseRental.company_commission_amount ∧
        r2.owner_payout_amount = baseRental.owner_payout_amount ∧
        r2.owner_payout_status = baseRental.owner_payout_status ∧
        r2.owner_payout_released_at = baseRental.owner_payout_released_at ∧
        r2.owner_initial_payout_amount = baseRental.owner_initial_payout_amount ∧
        r2.owner_initial_payout_status = baseRental.owner_initial_payout_status ∧
        r2.owner_initial_payout_released_at = baseRental.owner_initial_payout_released_at ∧
        r2.owner_final_payout_amount = baseRental.owner_final_payout_amount ∧
        r2.owner_final_payout_status = baseRental.owner_final_payout_status ∧
        r2.owner_final_payout_released_at = baseRental.owner_final_payout_released_at) ∧
      (baseRental.payment_status = "awaiting_payment" →
        r2.payment_status = "awaiting_payment" ∧ r2.payment_due_at = baseRental.payment_due_at ∧
        r2.company_commission_amount = 0 ∧ r2.owner_payout_amount = 0 ∧
        r2.owner_initial_payout_amount = 0 ∧ r2.owner_final_payout_amount = 0)) :=
  ⟨by norm_num, Or.inl (by decide),
   owner_extend_updates 50 2 100 baseRental (by norm_num) (Or.inl (by decide))
     ⟨90000, by decide⟩ ⟨10000, by decide⟩ ⟨10000, by decide⟩
     (by decide) (by decide) (by decide)⟩

/-- Claim C8 witness: the claim evaluated at counteredRental, whose delivery fee 100 is a whole number of paise. -/
theorem accept_counter_rental_amount_clamped_witness :
    counteredRental.owner_response = "counter" ∧
    TwoDec counteredRental.delivery_fee ∧
    ((counteredRental.delivery_fee ≤
        (renterRespondRental 30 "accept_counter" counteredRental false).1.total_amount →
      (renterRespondRental 30 "accept_counter" counteredRental false).1.total_amount =
        (renterRespondRental 30 "accept_counter" counteredRental false).1.rental_amount +
          counteredRental.delivery_fee) ∧
     ((renterRespondRental 30 "accept_counter" counteredRental false).1.total_amount <
        counteredRental.delivery_fee →
      (renterRespondRental 30 "accept_counter" counteredRental false).1.rental_amount = 0 ∧
      (renterRespondRental 30 "accept_counter" counteredRental false).1.total_amount <
        (renterRespondRental 30 "accept_counter" counteredRental false).1.rental_amount +
          counteredRental.delivery_fee)) :=
  ⟨by decide, ⟨10000, by decide⟩,
   accept_counter_rental_amount_clamped 30 counteredRental false (by decide) ⟨10000, by decide⟩⟩

/-- Claim C9 witness: the claim evaluated at baseRental. -/
theorem cancel_rental_frame_witness :
    (baseRental.status = "booked" ∨ baseRental.status = "active") ∧
    ∃ p, cancelRental 70 baseRental = some p ∧
      p.1.status = "cancelled" ∧ p.1.end_time = some 70 ∧
      p.1.renter_response = "cancelled_by_renter" ∧ p.1.renter_response_at = some 70 ∧
      p.2 = true ∧
      p.1.rental_amount = baseRental.rental_amount ∧ p.1.delivery_fee = baseRental.delivery_fee ∧
      p.1.discount_amount = baseRental.discount_amount ∧ p.1.total_amount = baseRental.total_amount ∧
      p.1.owner_response = baseRental.owner_response ∧ p.1.owner_response_at = baseRental.owner_response_at ∧
      p.1.counter_amount = baseRental.counter_amount ∧ p.1.counter_comment = baseRental.counter_comment ∧
      p.1.counter_used = baseRental.counter_used ∧ p.1.cancel_reason = baseRental.cancel_reason ∧
      p.1.payment_status = baseRental.payment_status ∧ p.1.payment_due_at = baseRental.payment_due_at ∧
      p.1.payment_confirmed_at = baseRental.payment_confirmed_at ∧
      p.1.payment_channel = baseRental.payment_channel ∧ p.1.payment_gateway = baseRental.payment_gateway ∧
      p.1.payment_reference = baseRental.payment_reference ∧
      p.1.payment_order_id = baseRental.payment_order_id ∧
      p.1.company_commission_amount = baseRental.company_commission_amount ∧
      p.1.owner_payout_amount = baseRental.owner_payout_amount ∧
      p.1.owner_payout_status = baseRental.owner_payout_status ∧
      p.1.owner_payout_released_at = baseRental.owner_payout_released_at ∧
      p.1.owner_initial_payout_amount = baseRental.owner_initial_payout_amount ∧
      p.1.owner_initial_payout_status = baseRental.owner_initial_payout_status ∧
      p.1.owner_initial_payout_released_at = baseRental.owner_initial_payout_released_at ∧
      p.1.owner_final_payout_amount = baseRental.owner_final_payout_amount ∧
      p.1.owner_final_payout_status = baseRental.owner_final_payout_status ∧
      p.1.owner_final_payout_released_at = baseRental.owner_final_payout_released_at ∧
      p.1.completed_at = baseRental.completed_at ∧
      (baseRental.payment_status = "paid" → p.1.payment_status = "paid") :=
  ⟨Or.inl (by decide), cancel_rental_frame 70 baseRental (Or.inl (by decide))⟩

/-- Claim C10 witness: the claim evaluated at acceptedRental. -/
theorem confirm_payment_idempotent_witness :
    acceptedRental.owner_response = "accepted" ∧
    ∃ p1, renterConfirmPayment 80 "upi" acceptedRental = some p1 ∧
    ∃ p2, renterConfirmPayment 90 "card" p1.1 = some p2 ∧
      p2.1.company_commission_amount = p1.1.company_commission_amount ∧
      p2.1.owner_payout_amount = p1.1.owner_payout_amount ∧
      p2.1.owner_initial_payout_amount = p1.1.owner_initial_payout_amount ∧
      p2.1.owner_final_payout_amount = p1.1.owner_final_payout_amount ∧
      p2.2 = p1.2 :=
  ⟨by decide, confirm_payment_idempotent 80 90 "upi" "card" acceptedRental (by decide)⟩

end SelfDrive

namespace SelfDrive

/-- Claim C5 counterexample: acceptedCounterRental is booked, awaiting payment (not paid) and still carries the initial payout 90 and final payout 810 of an earlier admin override; extending it zeroes both amounts and forces payment_channel to manual, refuting the claim that the payment fields of a non paid booking are left untouched. -/
theorem owner_extend_awaiting_cex :
    acceptedCounterRental.status = "booked" ∧
    acceptedCounterRental.payment_status = "awaiting_payment" ∧
    acceptedCounterRental.payment_status ≠ "paid" ∧
    acceptedCounterRental.owner_initial_payout_amount = 90 ∧
    acceptedCounterRental.owner_final_payout_amount = 810 ∧
    (ownerExtendRental 40 2 100 acceptedCounterRental).map
        (fun r2 => (r2.owner_initial_payout_amount, r2.owner_final_payout_amount,
          r2.payment_channel))
      = some (0, 0, "manual") ∧
    ¬((ownerExtendRental 40 2 100 acceptedCounterRental).map
        (fun r2 => r2.owner_initial_payout_amount) = some 90) := by
  decide

end SelfDrive
